import Mathlib

/-!
Verification of the client-side session and OAuth-callback core of the
canvas dashboard repository.

The embedding covers:

* the serialized-record codec used for the cached user identity
  (the flat string-object sublanguage of JSON that the client writes with
  JSON.stringify and reads back with JSON.parse; inputs outside this
  sublanguage are modelled as parse failures),
* the two-key browser store (session token, cached user identity),
* the Session Manager operations of src/unnamed/part_002:
  getAuthStatus, refreshToken, logout, saveAuthData, getAccessToken,
  getUserProfile, clearStoredAuthData,
* the Instagram OAuth callback processor of
  src/react/src/components/canvas/pop-bar/index.tsx (handleOAuthCallback),
  split into its synchronous prefix (everything before the first await)
  and its asynchronous continuation, which is how the browser event loop
  actually schedules two invocations in immediate succession.
-/

/-! ## Character constants of the serialized-record syntax -/

/-- Double-quote character. -/
def qCh : Char := Char.ofNat 34

/-- Backslash character. -/
def bCh : Char := Char.ofNat 92

/-- Opening-brace character. -/
def lbCh : Char := Char.ofNat 123

/-- Closing-brace character. -/
def rbCh : Char := Char.ofNat 125

/-- Colon character. -/
def clCh : Char := Char.ofNat 58

/-- Comma character. -/
def cmCh : Char := Char.ofNat 44

/-! ## Encoder (model of JSON.stringify on flat string records) -/

/-- A flat JSON object whose fields are all strings: the shape that
saveAuthData writes for the user record and that the callback code reads. -/
abbrev JsonObj := List (String × String)

/-- Escaping of one character inside a JSON string literal. -/
def escapeChar (c : Char) : List Char :=
  if c = qCh ∨ c = bCh then [bCh, c] else [c]

/-- Escaping of a whole string body. -/
def escapeString : List Char → List Char
  | [] => []
  | c :: s => escapeChar c ++ escapeString s

/-- A JSON string literal: quote, escaped body, quote. -/
def encodeStrChars (s : String) : List Char :=
  qCh :: (escapeString s.data ++ [qCh])

/-- One key-value field of the serialized record. -/
def encodePairChars (p : String × String) : List Char :=
  encodeStrChars p.1 ++ clCh :: encodeStrChars p.2

/-- Comma-separated field list of the serialized record. -/
def encodePairsChars : JsonObj → List Char
  | [] => []
  | [p] => encodePairChars p
  | p :: ps => encodePairChars p ++ cmCh :: encodePairsChars ps

/-- The serialized record, as a character list. -/
def stringifyChars (ps : JsonObj) : List Char :=
  match ps with
  | [] => [lbCh, rbCh]
  | _ => lbCh :: (encodePairsChars ps ++ [rbCh])

/-- Model of JSON.stringify on a flat string record. -/
def stringifyJsonObj (ps : JsonObj) : String :=
  String.mk (stringifyChars ps)

/-! ## Decoder (model of JSON.parse on flat string records) -/

/-- Reads a JSON string body up to its closing quote, undoing escapes.
The esc flag records that the previous character was a backslash.
Returns the decoded body and the remaining input. -/
def parseStrBody (esc : Bool) (acc : List Char) : List Char → Option (List Char × List Char)
  | [] => none
  | c :: rest =>
    if esc then parseStrBody false (c :: acc) rest
    else if c = qCh then some (acc.reverse, rest)
    else if c = bCh then parseStrBody true acc rest
    else parseStrBody false (c :: acc) rest

/-- Reads one key-value field: string, colon, string. -/
def parsePairChars (cs : List Char) : Option ((String × String) × List Char) :=
  match cs with
  | [] => none
  | c :: rest =>
    if c = qCh then
      match parseStrBody false [] rest with
      | none => none
      | some (k, rest1) =>
        match rest1 with
        | [] => none
        | c2 :: rest2 =>
          if c2 = clCh then
            match rest2 with
            | [] => none
            | c3 :: rest3 =>
              if c3 = qCh then
                match parseStrBody false [] rest3 with
                | none => none
                | some (v, rest4) => some ((String.mk k, String.mk v), rest4)
              else none
          else none
    else none

/-- Reads the comma-separated field list followed by the closing brace,
consuming the whole remaining input. The fuel bounds the number of fields. -/
def parsePairsLoop : Nat → List Char → Option JsonObj
  | 0, _ => none
  | fuel + 1, cs =>
    match parsePairChars cs with
    | none => none
    | some (p, rest) =>
      match rest with
      | [] => none
      | c :: rest2 =>
        if c = cmCh then
          match parsePairsLoop fuel rest2 with
          | none => none
          | some ps => some (p :: ps)
        else if c = rbCh then
          if rest2 = [] then some [p] else none
        else none

/-- Model of JSON.parse restricted to the flat string-object sublanguage
that the client itself writes; any other input is a parse failure. -/
def parseObjChars (cs : List Char) : Option JsonObj :=
  match cs with
  | [] => none
  | c :: rest =>
    if c = lbCh then
      if rest = [rbCh] then some []
      else parsePairsLoop rest.length rest
    else none

/-- String-level entry point of the decoder. -/
def parseJsonObj (s : String) : Option JsonObj :=
  parseObjChars s.data

/-! ## Codec round-trip -/

theorem parseStrBody_escapeString (s : List Char) :
    ∀ acc rest, parseStrBody false acc (escapeString s ++ qCh :: rest)
      = some (acc.reverse ++ s, rest) := by
  induction s with
  | nil =>
    intro acc rest
    simp [escapeString, parseStrBody]
  | cons c s ih =>
    intro acc rest
    by_cases hc : c = qCh ∨ c = bCh
    · have hesc : escapeChar c = [bCh, c] := by
        simp [escapeChar, hc]
      have hq : ¬ (bCh = qCh) := by decide
      simp only [escapeString, hesc, List.append_assoc, List.cons_append,
        List.nil_append]
      simp only [parseStrBody, Bool.false_eq_true, if_false, if_neg hq,
        if_pos rfl, if_true]
      rw [ih]
      simp
    · push_neg at hc
      obtain ⟨h1, h2⟩ := hc
      have hesc : escapeChar c = [c] := by
        simp [escapeChar, h1, h2]
      simp only [escapeString, hesc, List.append_assoc, List.cons_append,
        List.nil_append]
      simp only [parseStrBody, Bool.false_eq_true, if_false, if_neg h1,
        if_neg h2]
      rw [ih]
      simp

theorem parsePairChars_encode (p : String × String) (rest : List Char) :
    parsePairChars (encodePairChars p ++ rest) = some (p, rest) := by
  obtain ⟨k, v⟩ := p
  have hstep1 :
      encodePairChars (k, v) ++ rest
        = qCh :: (escapeString k.data
            ++ qCh :: (clCh :: (qCh :: (escapeString v.data ++ qCh :: rest)))) := by
    simp [encodePairChars, encodeStrChars]
  rw [hstep1]
  have hk := parseStrBody_escapeString k.data []
    (clCh :: (qCh :: (escapeString v.data ++ qCh :: rest)))
  have hv := parseStrBody_escapeString v.data [] rest
  simp only [List.reverse_nil, List.nil_append] at hk hv
  simp [parsePairChars, hk, hv]

theorem parsePairsLoop_encode (ps : JsonObj) :
    ∀ fuel, ps ≠ [] → ps.length ≤ fuel →
      parsePairsLoop fuel (encodePairsChars ps ++ [rbCh]) = some ps := by
  induction ps with
  | nil => intro fuel h; exact absurd rfl h
  | cons p ps ih =>
    intro fuel _ hlen
    match fuel, hlen with
    | fuel + 1, hlen =>
      cases ps with
      | nil =>
        simp only [encodePairsChars]
        have hp := parsePairChars_encode p [rbCh]
        have h1 : ¬ (rbCh = cmCh) := by decide
        simp [parsePairsLoop, hp, h1]
      | cons p2 ps2 =>
        have hlen2 : (p2 :: ps2).length ≤ fuel := by
          simp only [List.length_cons] at hlen ⊢
          omega
        have hrec := ih fuel (by simp) hlen2
        have hp := parsePairChars_encode p
          (cmCh :: (encodePairsChars (p2 :: ps2) ++ [rbCh]))
        simp only [encodePairsChars, List.append_assoc, List.cons_append]
        simp [parsePairsLoop, hp, hrec]

theorem encodePairsChars_length (ps : JsonObj) :
    ps ≠ [] → ps.length ≤ (encodePairsChars ps).length := by
  induction ps with
  | nil => intro h; exact absurd rfl h
  | cons p ps ih =>
    intro _
    cases ps with
    | nil => simp [encodePairsChars, encodePairChars, encodeStrChars]
    | cons p2 ps2 =>
      have h2 := ih (by simp)
      have h3 : 1 ≤ (encodePairChars p).length := by
        simp [encodePairChars, encodeStrChars]
      simp only [encodePairsChars, List.length_append, List.length_cons] at h2 ⊢
      omega

theorem parseObjChars_stringify (ps : JsonObj) :
    parseObjChars (stringifyChars ps) = some ps := by
  cases ps with
  | nil => decide
  | cons p ps2 =>
    have hne : (p :: ps2 : JsonObj) ≠ [] := by simp
    have hbody : encodePairsChars (p :: ps2) ≠ [] := by
      intro h
      have := encodePairsChars_length (p :: ps2) hne
      simp [h] at this
    simp only [stringifyChars]
    simp only [parseObjChars, if_pos rfl]
    have hneq : ¬ (encodePairsChars (p :: ps2) ++ [rbCh] = [rbCh]) := by
      intro h
      have hlen := congrArg List.length h
      simp at hlen
      exact hbody hlen
    rw [if_neg hneq]
    apply parsePairsLoop_encode
    · exact hne
    · have h1 := encodePairsChars_length (p :: ps2) hne
      simp only [List.length_append, List.length_cons, List.length_nil] at h1 ⊢
      omega

theorem parseJsonObj_stringify (ps : JsonObj) :
    parseJsonObj (stringifyJsonObj ps) = some ps := by
  have h : (stringifyJsonObj ps).data = stringifyChars ps := rfl
  rw [parseJsonObj, h, parseObjChars_stringify]

/-! ## Association lookup (model of URLSearchParams.get and of record field
lookup in a parsed object) -/

/-- First-match association lookup on string key-value lists. -/
def assocGet (k : String) : List (String × String) → Option String
  | [] => none
  | (k2, v) :: rest => if k2 = k then some v else assocGet k rest

/-! ## User records (the UserInfo interface of src/unnamed/part_002) -/

/-- The UserInfo interface: identifier, display name, contact address and
optional profile fields. Optional fields are absent when the value is
undefined, which JSON.stringify omits. -/
structure UserInfo where
  id : String
  username : String
  email : String
  image_url : Option String := none
  provider : Option String := none
  created_at : Option String := none
  updated_at : Option String := none
  last_login : Option String := none
  role : Option String := none
deriving DecidableEq

/-- One optional field of the serialized record: omitted when undefined,
exactly as JSON.stringify omits undefined properties. -/
def optField (k : String) : Option String → JsonObj
  | none => []
  | some v => [(k, v)]

/-- The flat string record that JSON.stringify produces for a UserInfo
value, fields in declaration order, undefined fields omitted. -/
def UserInfo.toPairs (u : UserInfo) : JsonObj :=
  ("id", u.id) :: ("username", u.username) :: ("email", u.email) ::
    (optField "image_url" u.image_url ++ optField "provider" u.provider ++
     optField "created_at" u.created_at ++ optField "updated_at" u.updated_at ++
     optField "last_login" u.last_login ++ optField "role" u.role)

/-- Reading a UserInfo value back out of a parsed flat record. -/
def UserInfo.fromPairs (ps : JsonObj) : Option UserInfo :=
  match assocGet "id" ps, assocGet "username" ps, assocGet "email" ps with
  | some i, some n, some e =>
    some { id := i, username := n, email := e,
           image_url := assocGet "image_url" ps,
           provider := assocGet "provider" ps,
           created_at := assocGet "created_at" ps,
           updated_at := assocGet "updated_at" ps,
           last_login := assocGet "last_login" ps,
           role := assocGet "role" ps }
  | _, _, _ => none

theorem fromPairs_toPairs (u : UserInfo) :
    UserInfo.fromPairs u.toPairs = some u := by
  obtain ⟨i, n, e, f1, f2, f3, f4, f5, f6⟩ := u
  cases f1 <;> cases f2 <;> cases f3 <;> cases f4 <;> cases f5 <;> cases f6 <;>
    simp [UserInfo.toPairs, UserInfo.fromPairs, assocGet, optField]

/-! ## The browser store (the two localStorage keys of the Session Manager) -/

/-- The durable key-value store, restricted to the two keys the Session
Manager owns: prism_access_token and prism_user_info. Values are the raw
strings localStorage holds. -/
structure Store where
  token : Option String
  userInfo : Option String
deriving DecidableEq

/-- getAccessToken: read of the prism_access_token key. -/
def getAccessToken (st : Store) : Option String :=
  st.token

/-- saveAuthData: writes the token under prism_access_token and the
serialized user record under prism_user_info. -/
def saveAuthData (token : String) (userInfo : JsonObj) (st : Store) : Store :=
  { st with token := some token, userInfo := some (stringifyJsonObj userInfo) }

/-- clearStoredAuthData: removes both keys. -/
def clearStoredAuthData (_st : Store) : Store :=
  { token := none, userInfo := none }

/-- Errors getUserProfile can signal: no stored record, or JSON.parse
throwing on a corrupt record. -/
inductive ProfileErr
  | notLoggedIn
  | parseError
deriving DecidableEq

/-- getUserProfile: reads and parses the stored user record; throws when
the key is absent, propagates a JSON.parse failure. -/
def getUserProfile (st : Store) : Except ProfileErr JsonObj :=
  match st.userInfo with
  | none => .error .notLoggedIn
  | some raw =>
    match parseJsonObj raw with
    | some u => .ok u
    | none => .error .parseError

/-! ## Network outcomes -/

/-- Outcome of one fetch call: an HTTP response with a status code and an
already-decoded body, or a thrown network error. -/
inductive FetchOutcome (α : Type)
  | resp (status : Nat) (body : α)
  | thrown
deriving DecidableEq

/-- Failure signals of refreshToken: the distinguished TOKEN_EXPIRED error
thrown on HTTP 401, the NETWORK_ERROR error thrown on any other status,
and a thrown transport error propagating out of fetch. -/
inductive RefreshErr
  | tokenExpired
  | networkError (status : Nat)
  | fetchThrown
deriving DecidableEq

/-- refreshToken: maps HTTP 200 to the new token in the body, HTTP 401 to
TOKEN_EXPIRED, any other status to NETWORK_ERROR carrying the status, and
lets a thrown fetch error propagate. -/
def refreshToken (o : FetchOutcome String) : Except RefreshErr String :=
  match o with
  | .thrown => .error .fetchThrown
  | .resp status body =>
    if status = 200 then .ok body
    else if status = 401 then .error .tokenExpired
    else .error (.networkError status)

/-! ## AuthStatus and getAuthStatus -/

/-- The three-state status tag. -/
inductive AuthTag
  | logged_out
  | pending
  | logged_in
deriving DecidableEq

/-- The AuthStatus result record. The two optional fields model the
optional TypeScript properties: none means the property is absent. -/
structure AuthStatus where
  status : AuthTag
  is_logged_in : Bool
  user_info : Option JsonObj := none
  tokenExpired : Option Bool := none
deriving DecidableEq

/-- The network environment one getAuthStatus call runs against: the
outcome of the refresh request and the outcome of the status request. -/
structure AuthEnv where
  refreshOutcome : FetchOutcome String
  statusOutcome : FetchOutcome JsonObj
deriving DecidableEq

/-- Step 2 of getAuthStatus: read the cached user record; on a parse
failure warn and remove the corrupt record, leaving no cached user. -/
def readCachedUser (st : Store) : Option JsonObj × Store :=
  match st.userInfo with
  | none => (none, st)
  | some raw =>
    match parseJsonObj raw with
    | some u => (some u, st)
    | none => (none, { st with userInfo := none })

/-- The catch-all fallback of getAuthStatus: cached identity if present,
otherwise logged_out with no expiration flag. -/
def authStatusFallback (cachedUser : Option JsonObj) : AuthStatus :=
  match cachedUser with
  | some u => { status := .logged_in, is_logged_in := true, user_info := some u }
  | none => { status := .logged_out, is_logged_in := false }

/-- Steps 4-7 of getAuthStatus: the status request issued with the active
token, its 200/401 handling, and the catch-all fallback. The third
component of the result records the bearer token the status request
carried. -/
def statusStep (o : FetchOutcome JsonObj) (activeToken : String)
    (cachedUser : Option JsonObj) (st : Store) :
    AuthStatus × Store × Option String :=
  match o with
  | .resp code info =>
    if code = 200 then
      ({ status := .logged_in, is_logged_in := true, user_info := some info },
       saveAuthData activeToken info st, some activeToken)
    else if code = 401 then
      ({ status := .logged_out, is_logged_in := false, tokenExpired := some true },
       clearStoredAuthData st, some activeToken)
    else
      (authStatusFallback cachedUser, st, some activeToken)
  | .thrown => (authStatusFallback cachedUser, st, some activeToken)

/-- getAuthStatus of src/unnamed/part_002. Returns the AuthStatus value,
the store afterwards, and the bearer token of the status request when one
was issued. -/
def getAuthStatus (env : AuthEnv) (st : Store) :
    AuthStatus × Store × Option String :=
  match getAccessToken st with
  | none => ({ status := .logged_out, is_logged_in := false }, st, none)
  | some token =>
    let r := readCachedUser st
    let cachedUser := r.1
    let st1 := r.2
    match refreshToken env.refreshOutcome with
    | .ok refreshedToken =>
      let st2 :=
        match cachedUser with
        | some u => saveAuthData refreshedToken u st1
        | none => { st1 with token := some refreshedToken }
      statusStep env.statusOutcome refreshedToken cachedUser st2
    | .error .tokenExpired =>
      ({ status := .logged_out, is_logged_in := false, tokenExpired := some true },
       clearStoredAuthData st1, none)
    | .error _ =>
      statusStep env.statusOutcome token cachedUser st1

/-! ## logout -/

/-- The localized logout success message, modelled as the i18n key the
source passes to the translator. -/
def logoutSuccessMessage : String := "common:auth.logoutSuccessMessage"

/-- The result record logout resolves with. -/
structure LogoutResult where
  status : String
  message : String
deriving DecidableEq

/-- logout of src/unnamed/part_002: when a token is stored the logout
endpoint is called and any thrown transport error is caught and logged;
in every case the local state is cleared and the success result returned. -/
def logout (o : FetchOutcome Unit) (st : Store) : LogoutResult × Store :=
  match getAccessToken st, o with
  | some _, .thrown =>
    ({ status := "success", message := logoutSuccessMessage }, clearStoredAuthData st)
  | some _, .resp _ _ =>
    ({ status := "success", message := logoutSuccessMessage }, clearStoredAuthData st)
  | none, _ =>
    ({ status := "success", message := logoutSuccessMessage }, clearStoredAuthData st)

/-! ## OAuth callback processor (handleOAuthCallback of the Instagram
connect dialog) -/

/-- The visible browser location: pathname plus parsed query parameters.
history.replaceState with the bare pathname empties the query. -/
structure Location where
  pathname : String
  search : List (String × String)
deriving DecidableEq

/-- The parameters of one connectInstagram exchange request. -/
structure ConnectParams where
  access_token : String
  instagram_user_id : String
  instagram_username : String
  expires_in : Nat
deriving DecidableEq

/-- The state the callback processor touches within one page load: the
processedRef guard, the visible location, the stored return location
(the instagram_return_url key, modelled structurally as the location it
denotes), and the trace of exchange requests sent so far. -/
structure OAuthWorld where
  processedRef : Bool
  location : Location
  returnUrl : Option Location
  connectRequests : List ConnectParams
deriving DecidableEq

/-- The Session Manager projection the callback reads: the isLoading flag
and the resolved is_logged_in flag of the auth context. -/
structure CallbackInputs where
  isAuthLoading : Bool
  isLoggedIn : Bool
deriving DecidableEq

/-- How the synchronous prefix of handleOAuthCallback ends. -/
inductive SyncResult
  | deferLoading
  | deferNotLoggedIn
  | alreadyProcessed
  | beginExchange (p : ConnectParams)
  | malformed
  | errorMarker
  | noMarker
deriving DecidableEq

/-- history.replaceState with the bare pathname: the query is emptied in
place. -/
def stripQueryMarker (loc : Location) : Location :=
  { pathname := loc.pathname, search := [] }

/-- The synchronous prefix of handleOAuthCallback: everything the effect
executes before its first await. Defers while auth is loading or logged
out; on the success marker it consults the guard, extracts the three
exchange parameters, and sets the guard before the exchange starts; on the
error marker it strips the query in place. -/
def handleOAuthCallbackSync (inp : CallbackInputs) (w : OAuthWorld) :
    OAuthWorld × SyncResult :=
  if inp.isAuthLoading then (w, .deferLoading)
  else if !inp.isLoggedIn then (w, .deferNotLoggedIn)
  else
    match assocGet "instagram_auth" w.location.search with
    | some r =>
      if r = "success" then
        if w.processedRef then (w, .alreadyProcessed)
        else
          match assocGet "token" w.location.search,
                assocGet "user_id" w.location.search,
                assocGet "username" w.location.search with
          | some t, some uid, some un =>
            ({ w with processedRef := true },
             .beginExchange ⟨t, uid, un, 5184000⟩)
          | _, _, _ => (w, .malformed)
      else if r = "error" then
        ({ w with location := stripQueryMarker w.location }, .errorMarker)
      else (w, .noMarker)
    | none => (w, .noMarker)

/-- Outcome of the connectInstagram exchange request. -/
inductive ConnectOutcome
  | success
  | failure
deriving DecidableEq

/-- The asynchronous continuation after the guard is set: the exchange
request is sent; on success the stored return location is consumed and
either navigated to (when its pathname differs) or the query is stripped
in place; on failure the guard is reset so a retry can run. -/
def handleExchangeAsync (o : ConnectOutcome) (p : ConnectParams)
    (w : OAuthWorld) : OAuthWorld :=
  let w1 := { w with connectRequests := w.connectRequests ++ [p] }
  match o with
  | .success =>
    match w1.returnUrl with
    | some ret =>
      let w2 := { w1 with returnUrl := none }
      if ret.pathname ≠ w1.location.pathname then
        { w2 with location := ret }
      else
        { w2 with location := stripQueryMarker w2.location }
    | none => { w1 with location := stripQueryMarker w1.location }
  | .failure => { w1 with processedRef := false }

/-- One complete invocation of the detection logic: the synchronous prefix
followed, when an exchange was started, by its asynchronous continuation. -/
def runCallbackOnce (inp : CallbackInputs) (o : ConnectOutcome)
    (w : OAuthWorld) : OAuthWorld :=
  match handleOAuthCallbackSync inp w with
  | (w1, .beginExchange p) => handleExchangeAsync o p w1
  | (w1, _) => w1

/-- Two invocations in immediate succession on the event loop: both
synchronous prefixes run before either asynchronous continuation. -/
def runCallbackTwiceInterleaved (inp : CallbackInputs)
    (o1 o2 : ConnectOutcome) (w : OAuthWorld) : OAuthWorld :=
  let s1 := handleOAuthCallbackSync inp w
  let s2 := handleOAuthCallbackSync inp s1.1
  let w3 :=
    match s1.2 with
    | .beginExchange p => handleExchangeAsync o1 p s2.1
    | _ => s2.1
  match s2.2 with
  | .beginExchange p => handleExchangeAsync o2 p w3
  | _ => w3

/-! ## Claim theorems -/

/-- C1: when a token is stored and the refresh request answers HTTP 401
(the TOKEN_EXPIRED signal), getAuthStatus returns logged_out with
is_logged_in false and tokenExpired true, and afterwards the store holds
neither the session token nor the cached user identity (and no status
request was issued). -/
theorem claim_C1_refresh_expired_clears_state (env : AuthEnv) (st : Store)
    (tok body : String)
    (htok : st.token = some tok)
    (href : env.refreshOutcome = .resp 401 body) :
    getAuthStatus env st
      = ({ status := .logged_out, is_logged_in := false,
           user_info := none, tokenExpired := some true },
         { token := none, userInfo := none }, none) := by
  have h1 : refreshToken env.refreshOutcome = .error .tokenExpired := by
    rw [href]
    simp [refreshToken]
  simp only [getAuthStatus, getAccessToken, htok]
  simp [h1, clearStoredAuthData]

/-- Witness for C1 at a concrete store and environment. -/
theorem claim_C1_refresh_expired_clears_state_witness :
    (⟨some "tok", none⟩ : Store).token = some "tok" ∧
    (⟨.resp 401 "", .thrown⟩ : AuthEnv).refreshOutcome = .resp 401 "" ∧
    getAuthStatus ⟨.resp 401 "", .thrown⟩ ⟨some "tok", none⟩
      = ({ status := .logged_out, is_logged_in := false,
           user_info := none, tokenExpired := some true },
         { token := none, userInfo := none }, none) :=
  ⟨rfl, rfl,
    claim_C1_refresh_expired_clears_state ⟨.resp 401 "", .thrown⟩
      ⟨some "tok", none⟩ "tok" "" rfl rfl⟩

/-- C4: logout always resolves with the success result and removes both
the session token and the cached user identity from the store, for every
network outcome of the logout request, including a thrown transport
error, and for every starting store. -/
theorem claim_C4_logout_always_clears (o : FetchOutcome Unit) (st : Store) :
    logout o st
      = ({ status := "success", message := logoutSuccessMessage },
         { token := none, userInfo := none }) := by
  cases h : st.token <;> cases o <;>
    simp [logout, getAccessToken, h, clearStoredAuthData]

/-- C9: saveAuthData followed by reading both keys back returns exactly
the token and the user record: getAccessToken yields the token, the
stored identity record parses back to exactly the serialized record of
the user, and that record determines the user with no loss. -/
theorem claim_C9_save_read_roundtrip (t : String) (u : UserInfo) (st : Store) :
    getAccessToken (saveAuthData t u.toPairs st) = some t ∧
    getUserProfile (saveAuthData t u.toPairs st) = .ok u.toPairs ∧
    UserInfo.fromPairs u.toPairs = some u := by
  refine ⟨rfl, ?_, fromPairs_toPairs u⟩
  simp [getUserProfile, saveAuthData, parseJsonObj_stringify]

/-! ## Helper lemmas about getAuthStatus -/

/-- A status outcome that is neither HTTP 200 nor HTTP 401: any other
response code, or a thrown network error. -/
def statusTransient : FetchOutcome JsonObj → Bool
  | .thrown => true
  | .resp code _ => (code != 200) && (code != 401)

theorem statusStep_transient (o : FetchOutcome JsonObj) (t : String)
    (cu : Option JsonObj) (s : Store) (ht : statusTransient o = true) :
    statusStep o t cu s = (authStatusFallback cu, s, some t) := by
  cases o with
  | thrown => rfl
  | resp code info =>
    simp only [statusTransient, Bool.and_eq_true, bne_iff_ne, ne_eq] at ht
    simp [statusStep, ht.1, ht.2]

theorem statusStep_trace (o : FetchOutcome JsonObj) (t : String)
    (cu : Option JsonObj) (s : Store) :
    (statusStep o t cu s).2.2 = some t := by
  cases o with
  | thrown => rfl
  | resp code info =>
    simp only [statusStep]
    split_ifs <;> rfl

theorem getAuthStatus_refresh_error (env : AuthEnv) (st : Store)
    (tok : String) (e : RefreshErr)
    (htok : st.token = some tok)
    (hr : refreshToken env.refreshOutcome = .error e)
    (hne : e ≠ .tokenExpired) :
    getAuthStatus env st
      = statusStep env.statusOutcome tok (readCachedUser st).1
          (readCachedUser st).2 := by
  simp only [getAuthStatus, getAccessToken, htok]
  cases e with
  | tokenExpired => exact absurd rfl hne
  | networkError code => simp [hr]
  | fetchThrown => simp [hr]

theorem getAuthStatus_refresh_ok (env : AuthEnv) (st : Store)
    (tok newTok : String)
    (htok : st.token = some tok)
    (hr : refreshToken env.refreshOutcome = .ok newTok) :
    getAuthStatus env st
      = statusStep env.statusOutcome newTok (readCachedUser st).1
          (match (readCachedUser st).1 with
           | some u => saveAuthData newTok u (readCachedUser st).2
           | none => { (readCachedUser st).2 with token := some newTok }) := by
  simp only [getAuthStatus, getAccessToken, htok]
  simp [hr]

/-- C3: when the status request yields neither 200 nor 401 (another code
or a thrown network error) and the refresh did not signal TOKEN_EXPIRED:
with a cached identity the call returns logged_in carrying it and both
store keys remain present; without a cached identity it returns
logged_out with tokenExpired unset. -/
theorem claim_C3_transient_status_fallback (env : AuthEnv) (st : Store)
    (tok : String)
    (htok : st.token = some tok)
    (href : refreshToken env.refreshOutcome ≠ .error .tokenExpired)
    (htr : statusTransient env.statusOutcome = true) :
    (∀ raw u, st.userInfo = some raw → parseJsonObj raw = some u →
      (getAuthStatus env st).1
        = { status := .logged_in, is_logged_in := true, user_info := some u } ∧
      ((getAuthStatus env st).2.1.token).isSome = true ∧
      ((getAuthStatus env st).2.1.userInfo).isSome = true) ∧
    (st.userInfo = none →
      (getAuthStatus env st).1
        = { status := .logged_out, is_logged_in := false }) := by
  cases hr : refreshToken env.refreshOutcome with
  | ok newTok =>
    rw [getAuthStatus_refresh_ok env st tok newTok htok hr]
    constructor
    · intro raw u hraw hparse
      have hread : readCachedUser st = (some u, st) := by
        simp [readCachedUser, hraw, hparse]
      rw [hread]
      rw [statusStep_transient _ _ _ _ htr]
      simp [authStatusFallback, saveAuthData]
    · intro hnone
      have hread : readCachedUser st = (none, st) := by
        simp [readCachedUser, hnone]
      rw [hread]
      rw [statusStep_transient _ _ _ _ htr]
      simp [authStatusFallback]
  | error e =>
    have hne : e ≠ .tokenExpired := by
      rintro rfl
      exact href hr
    rw [getAuthStatus_refresh_error env st tok e htok hr hne]
    constructor
    · intro raw u hraw hparse
      have hread : readCachedUser st = (some u, st) := by
        simp [readCachedUser, hraw, hparse]
      rw [hread]
      rw [statusStep_transient _ _ _ _ htr]
      simp [authStatusFallback, htok, hraw]
    · intro hnone
      have hread : readCachedUser st = (none, st) := by
        simp [readCachedUser, hnone]
      rw [hread]
      rw [statusStep_transient _ _ _ _ htr]
      simp [authStatusFallback]

/-- Witness for C3 at a concrete store with a cached identity and an
offline status request. -/
theorem claim_C3_transient_status_fallback_witness :
    (getAuthStatus ⟨.resp 200 "newTok", .thrown⟩
        ⟨some "tok", some (stringifyJsonObj [("id", "1")])⟩).1
      = { status := .logged_in, is_logged_in := true,
          user_info := some [("id", "1")] } ∧
    ((getAuthStatus ⟨.resp 200 "newTok", .thrown⟩
        ⟨some "tok", some (stringifyJsonObj [("id", "1")])⟩).2.1.token).isSome
      = true ∧
    ((getAuthStatus ⟨.resp 200 "newTok", .thrown⟩
        ⟨some "tok", some (stringifyJsonObj [("id", "1")])⟩).2.1.userInfo).isSome
      = true :=
  (claim_C3_transient_status_fallback ⟨.resp 200 "newTok", .thrown⟩
      ⟨some "tok", some (stringifyJsonObj [("id", "1")])⟩ "tok" rfl
      (by simp [refreshToken]) rfl).1
    (stringifyJsonObj [("id", "1")]) [("id", "1")] rfl
    (parseJsonObj_stringify [("id", "1")])

/-- C6 counterexample: a call in which the refresh request fails with
NETWORK_ERROR 500 (not TOKEN_EXPIRED) but the subsequent status request
answers 401. The token was present before the call and the store is
empty afterwards, so local state was cleared during a call whose refresh
failure was non-authoritative, contradicting the claim as stated. -/
theorem claim_C6_counterexample :
    refreshToken (AuthEnv.mk (.resp 500 "") (.resp 401 [])).refreshOutcome
      = .error (.networkError 500) ∧
    (⟨some "tok", none⟩ : Store).token = some "tok" ∧
    (getAuthStatus ⟨.resp 500 "", .resp 401 []⟩ ⟨some "tok", none⟩).2.1
      = { token := none, userInfo := none } := by
  refine ⟨rfl, rfl, ?_⟩
  rfl

/-- C6 amended: when the refresh request fails with any signal other than
TOKEN_EXPIRED, the refresh-failure handling itself clears nothing: the
call proceeds to the status step on the store exactly as the cache-read
step left it, and the status request is issued with the original,
unrefreshed token. -/
theorem claim_C6_amended_refresh_failure_keeps_state (env : AuthEnv)
    (st : Store) (tok : String) (e : RefreshErr)
    (htok : st.token = some tok)
    (hr : refreshToken env.refreshOutcome = .error e)
    (hne : e ≠ .tokenExpired) :
    getAuthStatus env st
      = statusStep env.statusOutcome tok (readCachedUser st).1
          (readCachedUser st).2 ∧
    (getAuthStatus env st).2.2 = some tok := by
  have h1 := getAuthStatus_refresh_error env st tok e htok hr hne
  refine ⟨h1, ?_⟩
  rw [h1]
  exact statusStep_trace _ _ _ _

/-- Witness for the amended C6 at a concrete store and environment. -/
theorem claim_C6_amended_refresh_failure_keeps_state_witness :
    getAuthStatus ⟨.resp 500 "", .thrown⟩ ⟨some "tok", none⟩
      = statusStep (FetchOutcome.thrown) "tok"
          (readCachedUser ⟨some "tok", none⟩).1
          (readCachedUser ⟨some "tok", none⟩).2 ∧
    (getAuthStatus ⟨.resp 500 "", .thrown⟩ ⟨some "tok", none⟩).2.2
      = some "tok" :=
  claim_C6_amended_refresh_failure_keeps_state ⟨.resp 500 "", .thrown⟩
    ⟨some "tok", none⟩ "tok" (.networkError 500) rfl (by simp [refreshToken])
    (by decide)

/-- C10: when the stored cached-identity record fails to parse during
getAuthStatus, the read step removes the record from the store, the whole
call behaves exactly as if no cached identity existed, and under a
transient status-check failure (with a non-expired refresh) the call
returns logged_out with tokenExpired unset while the cache key stays
deleted. -/
theorem claim_C10_corrupt_cache_removed (env : AuthEnv) (st : Store)
    (tok raw : String)
    (htok : st.token = some tok)
    (hraw : st.userInfo = some raw)
    (hbad : parseJsonObj raw = none)
    (href : refreshToken env.refreshOutcome ≠ .error .tokenExpired)
    (htr : statusTransient env.statusOutcome = true) :
    readCachedUser st = (none, { st with userInfo := none }) ∧
    getAuthStatus env st = getAuthStatus env { st with userInfo := none } ∧
    (getAuthStatus env st).1
      = { status := .logged_out, is_logged_in := false } ∧
    (getAuthStatus env st).2.1.userInfo = none := by
  have hread : readCachedUser st = (none, { st with userInfo := none }) := by
    simp [readCachedUser, hraw, hbad]
  have hread2 : readCachedUser { st with userInfo := none }
      = (none, { st with userInfo := none }) := by
    simp [readCachedUser]
  have htok2 : ({ st with userInfo := none } : Store).token = some tok := htok
  have hkey : (getAuthStatus env st).1 = authStatusFallback none ∧
      (getAuthStatus env st).2.1.userInfo = none := by
    cases hr : refreshToken env.refreshOutcome with
    | ok newTok =>
      rw [getAuthStatus_refresh_ok env st tok newTok htok hr, hread]
      rw [statusStep_transient _ _ _ _ htr]
      simp
    | error e =>
      have hne : e ≠ .tokenExpired := by
        rintro rfl
        exact href hr
      rw [getAuthStatus_refresh_error env st tok e htok hr hne, hread]
      rw [statusStep_transient _ _ _ _ htr]
      simp
  refine ⟨hread, ?_, hkey.1, hkey.2⟩
  cases hr : refreshToken env.refreshOutcome with
  | ok newTok =>
    rw [getAuthStatus_refresh_ok env st tok newTok htok hr,
      getAuthStatus_refresh_ok env _ tok newTok htok2 hr, hread, hread2]
  | error e =>
    have hne : e ≠ .tokenExpired := by
      rintro rfl
      exact href hr
    rw [getAuthStatus_refresh_error env st tok e htok hr hne,
      getAuthStatus_refresh_error env _ tok e htok2 hr hne, hread, hread2]

/-- Witness for C10 at a concrete corrupt record. -/
theorem claim_C10_corrupt_cache_removed_witness :
    readCachedUser ⟨some "tok", some "bad"⟩
      = (none, { Store.mk (some "tok") (some "bad") with userInfo := none }) ∧
    getAuthStatus ⟨.resp 500 "", .thrown⟩ ⟨some "tok", some "bad"⟩
      = getAuthStatus ⟨.resp 500 "", .thrown⟩
          { Store.mk (some "tok") (some "bad") with userInfo := none } ∧
    (getAuthStatus ⟨.resp 500 "", .thrown⟩ ⟨some "tok", some "bad"⟩).1
      = { status := .logged_out, is_logged_in := false } ∧
    (getAuthStatus ⟨.resp 500 "", .thrown⟩ ⟨some "tok", some "bad"⟩).2.1.userInfo
      = none :=
  claim_C10_corrupt_cache_removed ⟨.resp 500 "", .thrown⟩
    ⟨some "tok", some "bad"⟩ "tok" "bad" rfl rfl (by decide)
    (by simp [refreshToken]) rfl

/-! ## Helper lemmas about the callback processor -/

theorem handleExchangeAsync_requests (o : ConnectOutcome) (p : ConnectParams)
    (w : OAuthWorld) :
    (handleExchangeAsync o p w).connectRequests
      = w.connectRequests ++ [p] := by
  cases o with
  | failure => rfl
  | success =>
    simp only [handleExchangeAsync]
    cases w.returnUrl with
    | none => rfl
    | some ret =>
      by_cases h : ret.pathname = w.location.pathname <;> simp [h]

theorem sync_beginExchange (inp : CallbackInputs) (w : OAuthWorld)
    (t uid un : String)
    (hload : inp.isAuthLoading = false)
    (hlog : inp.isLoggedIn = true)
    (hmk : assocGet "instagram_auth" w.location.search = some "success")
    (ht : assocGet "token" w.location.search = some t)
    (hu : assocGet "user_id" w.location.search = some uid)
    (hn : assocGet "username" w.location.search = some un)
    (hg : w.processedRef = false) :
    handleOAuthCallbackSync inp w
      = ({ w with processedRef := true },
         .beginExchange ⟨t, uid, un, 5184000⟩) := by
  simp [handleOAuthCallbackSync, hload, hlog, hmk, ht, hu, hn, hg]

/-- C2: two invocations of the detection logic in immediate succession
(both synchronous prefixes before either continuation) with the success
marker and all three exchange parameters present send exactly one
exchange request: the guard is set synchronously by the first prefix, so
the second prefix aborts as already processed, whatever either exchange
outcome is. -/
theorem claim_C2_double_invocation_single_exchange (inp : CallbackInputs)
    (o1 o2 : ConnectOutcome) (w : OAuthWorld) (t uid un : String)
    (hload : inp.isAuthLoading = false)
    (hlog : inp.isLoggedIn = true)
    (hmk : assocGet "instagram_auth" w.location.search = some "success")
    (ht : assocGet "token" w.location.search = some t)
    (hu : assocGet "user_id" w.location.search = some uid)
    (hn : assocGet "username" w.location.search = some un)
    (hg : w.processedRef = false) :
    (runCallbackTwiceInterleaved inp o1 o2 w).connectRequests
      = w.connectRequests ++ [⟨t, uid, un, 5184000⟩] ∧
    (handleOAuthCallbackSync inp (handleOAuthCallbackSync inp w).1).2
      = .alreadyProcessed := by
  have hs1 := sync_beginExchange inp w t uid un hload hlog hmk ht hu hn hg
  have hs2 : handleOAuthCallbackSync inp { w with processedRef := true }
      = ({ w with processedRef := true }, .alreadyProcessed) := by
    simp [handleOAuthCallbackSync, hload, hlog, hmk]
  constructor
  · simp only [runCallbackTwiceInterleaved, hs1, hs2]
    rw [handleExchangeAsync_requests]
  · rw [hs1, hs2]

/-- Witness for C2 at a concrete page-load state. -/
theorem claim_C2_double_invocation_single_exchange_witness :
    (runCallbackTwiceInterleaved ⟨false, true⟩ .success .success
        ⟨false,
         ⟨"/canvas",
          [("instagram_auth", "success"), ("token", "T"),
           ("user_id", "U"), ("username", "N")]⟩,
         none, []⟩).connectRequests
      = [] ++ [⟨"T", "U", "N", 5184000⟩] ∧
    (handleOAuthCallbackSync ⟨false, true⟩
        (handleOAuthCallbackSync ⟨false, true⟩
          ⟨false,
           ⟨"/canvas",
            [("instagram_auth", "success"), ("token", "T"),
             ("user_id", "U"), ("username", "N")]⟩,
           none, []⟩).1).2
      = .alreadyProcessed :=
  claim_C2_double_invocation_single_exchange ⟨false, true⟩ .success .success
    ⟨false,
     ⟨"/canvas",
      [("instagram_auth", "success"), ("token", "T"),
       ("user_id", "U"), ("username", "N")]⟩,
     none, []⟩ "T" "U" "N" rfl rfl rfl rfl rfl rfl rfl

/-- C5: when the exchange request fails, the guard is reset, the location
(and with it the success marker and its parameters) is untouched, and a
subsequent invocation within the same page load sends a new exchange
request. -/
theorem claim_C5_failure_resets_guard_allows_retry (inp : CallbackInputs)
    (o2 : ConnectOutcome) (w : OAuthWorld) (t uid un : String)
    (hload : inp.isAuthLoading = false)
    (hlog : inp.isLoggedIn = true)
    (hmk : assocGet "instagram_auth" w.location.search = some "success")
    (ht : assocGet "token" w.location.search = some t)
    (hu : assocGet "user_id" w.location.search = some uid)
    (hn : assocGet "username" w.location.search = some un)
    (hg : w.processedRef = false) :
    (runCallbackOnce inp .failure w).processedRef = false ∧
    (runCallbackOnce inp .failure w).location = w.location ∧
    (runCallbackOnce inp .failure w).connectRequests
      = w.connectRequests ++ [⟨t, uid, un, 5184000⟩] ∧
    (runCallbackOnce inp o2 (runCallbackOnce inp .failure w)).connectRequests
      = w.connectRequests ++ [⟨t, uid, un, 5184000⟩, ⟨t, uid, un, 5184000⟩] := by
  have hs1 := sync_beginExchange inp w t uid un hload hlog hmk ht hu hn hg
  have hrun1 : runCallbackOnce inp .failure w
      = OAuthWorld.mk false w.location w.returnUrl
          (w.connectRequests ++ [⟨t, uid, un, 5184000⟩]) := by
    simp [runCallbackOnce, hs1, handleExchangeAsync]
  have hs1b := sync_beginExchange inp
    (OAuthWorld.mk false w.location w.returnUrl
      (w.connectRequests ++ [⟨t, uid, un, 5184000⟩]))
    t uid un hload hlog hmk ht hu hn rfl
  refine ⟨by rw [hrun1], by rw [hrun1], by rw [hrun1], ?_⟩
  rw [hrun1]
  simp only [runCallbackOnce, hs1b]
  rw [handleExchangeAsync_requests]
  simp

/-- Witness for C5 at a concrete page-load state. -/
theorem claim_C5_failure_resets_guard_allows_retry_witness :
    (runCallbackOnce ⟨false, true⟩ .failure
        ⟨false,
         ⟨"/canvas",
          [("instagram_auth", "success"), ("token", "T"),
           ("user_id", "U"), ("username", "N")]⟩,
         none, []⟩).processedRef = false ∧
    (runCallbackOnce ⟨false, true⟩ .failure
        ⟨false,
         ⟨"/canvas",
          [("instagram_auth", "success"), ("token", "T"),
           ("user_id", "U"), ("username", "N")]⟩,
         none, []⟩).location
      = ⟨"/canvas",
         [("instagram_auth", "success"), ("token", "T"),
          ("user_id", "U"), ("username", "N")]⟩ ∧
    (runCallbackOnce ⟨false, true⟩ .failure
        ⟨false,
         ⟨"/canvas",
          [("instagram_auth", "success"), ("token", "T"),
           ("user_id", "U"), ("username", "N")]⟩,
         none, []⟩).connectRequests
      = [] ++ [⟨"T", "U", "N", 5184000⟩] ∧
    (runCallbackOnce ⟨false, true⟩ .failure
        (runCallbackOnce ⟨false, true⟩ .failure
          ⟨false,
           ⟨"/canvas",
            [("instagram_auth", "success"), ("token", "T"),
             ("user_id", "U"), ("username", "N")]⟩,
           none, []⟩)).connectRequests
      = [] ++ [⟨"T", "U", "N", 5184000⟩, ⟨"T", "U", "N", 5184000⟩] :=
  claim_C5_failure_resets_guard_allows_retry ⟨false, true⟩ .failure
    ⟨false,
     ⟨"/canvas",
      [("instagram_auth", "success"), ("token", "T"),
       ("user_id", "U"), ("username", "N")]⟩,
     none, []⟩ "T" "U" "N" rfl rfl rfl rfl rfl rfl rfl

/-- C7: while the session status is still resolving or resolved to not
logged in, the detection logic returns without touching any state: it
neither sets the guard nor sends an exchange request; and an invocation
after the session settles as logged_in (the effect re-runs on those input
changes) performs the exchange on the very same page-load state. -/
theorem claim_C7_defer_until_logged_in (inp inp2 : CallbackInputs)
    (o : ConnectOutcome) (w : OAuthWorld) (t uid un : String)
    (hdefer : inp.isAuthLoading = true ∨ inp.isLoggedIn = false)
    (hmk : assocGet "instagram_auth" w.location.search = some "success")
    (ht : assocGet "token" w.location.search = some t)
    (hu : assocGet "user_id" w.location.search = some uid)
    (hn : assocGet "username" w.location.search = some un)
    (hg : w.processedRef = false)
    (h2load : inp2.isAuthLoading = false)
    (h2log : inp2.isLoggedIn = true) :
    runCallbackOnce inp o w = w ∧
    (handleOAuthCallbackSync inp w).1.processedRef = false ∧
    (handleOAuthCallbackSync inp2 w).2
      = .beginExchange ⟨t, uid, un, 5184000⟩ ∧
    (runCallbackOnce inp2 o w).connectRequests
      = w.connectRequests ++ [⟨t, uid, un, 5184000⟩] := by
  have hd : handleOAuthCallbackSync inp w = (w, .deferLoading) ∨
      handleOAuthCallbackSync inp w = (w, .deferNotLoggedIn) := by
    rcases hdefer with h | h
    · left
      simp [handleOAuthCallbackSync, h]
    · cases hl : inp.isAuthLoading
      · right
        simp [handleOAuthCallbackSync, hl, h]
      · left
        simp [handleOAuthCallbackSync, hl]
  have hs2 := sync_beginExchange inp2 w t uid un h2load h2log hmk ht hu hn hg
  refine ⟨?_, ?_, ?_, ?_⟩
  · rcases hd with h | h <;> simp [runCallbackOnce, h]
  · rcases hd with h | h <;> rw [h] <;> exact hg
  · rw [hs2]
  · simp only [runCallbackOnce, hs2]
    rw [handleExchangeAsync_requests]

/-- Witness for C7: a deferred invocation while auth is loading, then a
settled invocation on the same state. -/
theorem claim_C7_defer_until_logged_in_witness :
    runCallbackOnce ⟨true, false⟩ .success
        ⟨false,
         ⟨"/canvas",
          [("instagram_auth", "success"), ("token", "T"),
           ("user_id", "U"), ("username", "N")]⟩,
         none, []⟩
      = ⟨false,
         ⟨"/canvas",
          [("instagram_auth", "success"), ("token", "T"),
           ("user_id", "U"), ("username", "N")]⟩,
         none, []⟩ ∧
    (handleOAuthCallbackSync ⟨true, false⟩
        ⟨false,
         ⟨"/canvas",
          [("instagram_auth", "success"), ("token", "T"),
           ("user_id", "U"), ("username", "N")]⟩,
         none, []⟩).1.processedRef = false ∧
    (handleOAuthCallbackSync ⟨false, true⟩
        ⟨false,
         ⟨"/canvas",
          [("instagram_auth", "success"), ("token", "T"),
           ("user_id", "U"), ("username", "N")]⟩,
         none, []⟩).2
      = .beginExchange ⟨"T", "U", "N", 5184000⟩ ∧
    (runCallbackOnce ⟨false, true⟩ .success
        ⟨false,
         ⟨"/canvas",
          [("instagram_auth", "success"), ("token", "T"),
           ("user_id", "U"), ("username", "N")]⟩,
         none, []⟩).connectRequests
      = [] ++ [⟨"T", "U", "N", 5184000⟩] :=
  claim_C7_defer_until_logged_in ⟨true, false⟩ ⟨false, true⟩ .success
    ⟨false,
     ⟨"/canvas",
      [("instagram_auth", "success"), ("token", "T"),
       ("user_id", "U"), ("username", "N")]⟩,
     none, []⟩ "T" "U" "N" (Or.inl rfl) rfl rfl rfl rfl rfl rfl rfl

/-- C8: on exchange success the stored return location is read and
consumed; when it is present and its pathname differs from the current
location the processor navigates there (the visible location becomes the
return location, discarding the query marker); otherwise the marker is
stripped from the current location in place. -/
theorem claim_C8_return_location_consumed (inp : CallbackInputs)
    (w : OAuthWorld) (t uid un : String)
    (hload : inp.isAuthLoading = false)
    (hlog : inp.isLoggedIn = true)
    (hmk : assocGet "instagram_auth" w.location.search = some "success")
    (ht : assocGet "token" w.location.search = some t)
    (hu : assocGet "user_id" w.location.search = some uid)
    (hn : assocGet "username" w.location.search = some un)
    (hg : w.processedRef = false) :
    (∀ ret, w.returnUrl = some ret →
      (runCallbackOnce inp .success w).returnUrl = none ∧
      (ret.pathname ≠ w.location.pathname →
        (runCallbackOnce inp .success w).location = ret) ∧
      (ret.pathname = w.location.pathname →
        (runCallbackOnce inp .success w).location
          = { pathname := w.location.pathname, search := [] })) ∧
    (w.returnUrl = none →
      (runCallbackOnce inp .success w).returnUrl = none ∧
      (runCallbackOnce inp .success w).location
        = { pathname := w.location.pathname, search := [] }) := by
  have hs1 := sync_beginExchange inp w t uid un hload hlog hmk ht hu hn hg
  have hrun : runCallbackOnce inp .success w
      = handleExchangeAsync .success ⟨t, uid, un, 5184000⟩
          (OAuthWorld.mk true w.location w.returnUrl w.connectRequests) := by
    simp [runCallbackOnce, hs1]
  constructor
  · intro ret hret
    rw [hrun]
    by_cases hp : ret.pathname = w.location.pathname
    · have hval : handleExchangeAsync .success ⟨t, uid, un, 5184000⟩
          (OAuthWorld.mk true w.location w.returnUrl w.connectRequests)
          = OAuthWorld.mk true
              { pathname := w.location.pathname, search := [] } none
              (w.connectRequests ++ [⟨t, uid, un, 5184000⟩]) := by
        simp [handleExchangeAsync, hret, hp, stripQueryMarker]
      rw [hval]
      exact ⟨rfl, fun h => absurd hp h, fun _ => rfl⟩
    · have hval : handleExchangeAsync .success ⟨t, uid, un, 5184000⟩
          (OAuthWorld.mk true w.location w.returnUrl w.connectRequests)
          = OAuthWorld.mk true ret none
              (w.connectRequests ++ [⟨t, uid, un, 5184000⟩]) := by
        simp [handleExchangeAsync, hret, hp]
      rw [hval]
      exact ⟨rfl, fun _ => rfl, fun h => absurd h hp⟩
  · intro hret
    rw [hrun]
    have hval : handleExchangeAsync .success ⟨t, uid, un, 5184000⟩
        (OAuthWorld.mk true w.location w.returnUrl w.connectRequests)
        = OAuthWorld.mk true
            { pathname := w.location.pathname, search := [] } none
            (w.connectRequests ++ [⟨t, uid, un, 5184000⟩]) := by
      simp [handleExchangeAsync, hret, stripQueryMarker]
    rw [hval]
    exact ⟨rfl, rfl⟩

/-- Witness for C8: a concrete success redirect with a stored return
location on a different pathname, which is navigated to and consumed. -/
theorem claim_C8_return_location_consumed_witness :
    (runCallbackOnce ⟨false, true⟩ .success
        ⟨false,
         ⟨"/canvas",
          [("instagram_auth", "success"), ("token", "T"),
           ("user_id", "U"), ("username", "N")]⟩,
         some ⟨"/home", []⟩, []⟩).returnUrl = none ∧
    (runCallbackOnce ⟨false, true⟩ .success
        ⟨false,
         ⟨"/canvas",
          [("instagram_auth", "success"), ("token", "T"),
           ("user_id", "U"), ("username", "N")]⟩,
         some ⟨"/home", []⟩, []⟩).location = ⟨"/home", []⟩ := by
  have h := (claim_C8_return_location_consumed ⟨false, true⟩
    ⟨false,
     ⟨"/canvas",
      [("instagram_auth", "success"), ("token", "T"),
       ("user_id", "U"), ("username", "N")]⟩,
     some ⟨"/home", []⟩, []⟩ "T" "U" "N"
    rfl rfl rfl rfl rfl rfl rfl).1 ⟨"/home", []⟩ rfl
  exact ⟨h.1, h.2.1 (by decide)⟩
